import Mathlib

/-!
Verification development for a portfolio "experience" page.

The page consists of three copy-pasted horizontal carousel implementations
(the press carousel in `app/experience/page.tsx`, the press-hit rail and the
photo rail in `components/ExperienceDeck.tsx`) plus static experience data
grouped by year in `lib/experienceData.ts`.  The definitions below are a
shallow embedding of that code: widths and counts are `Nat` (DOM
`clientWidth` is a non-negative integer), carousel indices and drag offsets
are `Int` (JS numbers, integral in all the arithmetic performed here), and
JS `undefined`/`null` fields are `Option`.
-/

/-! ## Models of JS string primitives -/

/-- Model of checking that the first list of characters is a prefix of the
second (used to model JS `String.prototype.includes`). -/
def strStarts : List Char → List Char → Bool
  | [], _ => true
  | _ :: _, [] => false
  | a :: as, b :: bs => a == b && strStarts as bs

/-- Model of substring containment on character lists. -/
def strHas (pat : List Char) : List Char → Bool
  | [] => strStarts pat []
  | c :: rest => strStarts pat (c :: rest) || strHas pat rest

/-- Model of JS `s.includes(pat)` (case-sensitive substring test). -/
def jsIncludes (s pat : String) : Bool :=
  strHas pat.data s.data

/-- Model of JS `s.toLowerCase()`; the strings it is applied to in this code
base are ASCII, where `Char.toLower` agrees with JS. -/
def jsToLowerCase (s : String) : String :=
  ⟨s.data.map Char.toLower⟩

/-- Decimal value of a list of digit characters, most significant first. -/
def digitsVal (cs : List Char) : Nat :=
  cs.foldl (fun n c => n * 10 + (c.toNat - 48)) 0

/-- Model of JS `Number(s)` restricted to the non-negative decimal year keys
it is applied to in this code base (`"2021"`–`"2025"`, all plain digit
strings). -/
def jsNumber (s : String) : Int :=
  (digitsVal s.data : Nat)

/-! ## Data model (`lib/experienceData.ts` and `page.tsx`) -/

/-- `PressItem` from `page.tsx`: `{title, href, source?, image?}`. -/
structure PressItem where
  title : String
  href : String
  source : Option String := none
  image : Option String := none
deriving DecidableEq

/-- `PressHit` from `lib/experienceData.ts`: `{publisher, href, logo}`. -/
structure PressHit where
  publisher : String
  href : String
  logo : String
deriving DecidableEq

/-- `ExperienceItem` from `lib/experienceData.ts`.  Fields that are optional
or nullable in TypeScript are `Option` here (`undefined` and `null` both
become `none`, which is how the rendering code treats them). -/
structure ExperienceItem where
  dates : String
  role : String
  org : String
  summary : String
  link : Option String := none
  link_text : Option String := none
  image : Option String := none
  photos : Option (List String) := none
  pressHits : Option (List PressHit) := none
deriving DecidableEq

/-- `ExperienceWithYear = ExperienceItem & { year: string }` from
`ExperienceDeck.tsx`. -/
structure ExperienceWithYear extends ExperienceItem where
  year : String
deriving DecidableEq

/-! ## Carousel pagination model: shared shape -/

/-- `clamp` as defined identically in `page.tsx` and `ExperienceDeck.tsx`:
`Math.min(max, Math.max(min, n))`. -/
def clamp (n lo hi : Int) : Int :=
  min hi (max lo n)

/-- Sizing constant `CARD_WIDTH` from `page.tsx`. -/
def CARD_WIDTH : Nat := 253

/-- Sizing constant `CARD_GAP` from `page.tsx`. -/
def CARD_GAP : Nat := 16

/-- Sizing constant `HIT_DIAMETER` from `ExperienceDeck.tsx`. -/
def HIT_DIAMETER : Nat := 72

/-- Sizing constant `HIT_GAP` from `ExperienceDeck.tsx`. -/
def HIT_GAP : Nat := 16

/-- Sizing constant `PHOTO_W` from `ExperienceDeck.tsx`. -/
def PHOTO_W : Nat := 260

/-- Sizing constant `PHOTO_H` from `ExperienceDeck.tsx` (not used by the
pagination arithmetic). -/
def PHOTO_H : Nat := 170

/-- Sizing constant `PHOTO_GAP` from `ExperienceDeck.tsx`. -/
def PHOTO_GAP : Nat := 16

/-- State of one mounted carousel instance: the scroll `index` (a React
`useState` number) and the measured viewport width (`viewportW`, updated by
a `ResizeObserver`). -/
structure CState where
  index : Int
  viewportW : Nat
deriving DecidableEq

/-- Events a mounted carousel reacts to: a click on the right nav button, a
click on the left nav button, a drag release with horizontal offset
`offset`, and a viewport resize to width `w`. -/
inductive CEvent where
  | next : CEvent
  | prev : CEvent
  | drag (offset : Int) : CEvent
  | resize (w : Nat) : CEvent
deriving DecidableEq

/-- Initial state of a carousel on mount: `useState(0)` for the index and
`useState(0)` for the measured width. -/
def initCState : CState := ⟨0, 0⟩

/-! ## Static press data (`page.tsx`) -/

/-- The hard-coded `pressItems` array from `page.tsx`.  Entries with an
empty `href` string in the source keep the empty string here. -/
def pressItems : List PressItem :=
  [ { title := "Featured in launch of ChatGPT Pulse",
      href := "https://openai.com/index/introducing-chatgpt-pulse/",
      source := some "OpenAI",
      image := some "https://pub-41d52824b0bb4f44898c39e1c3c63cb8.r2.dev/press/pulse.jpg" },
    { title := "OpenAI Instagram spotlight on ChatGPT Study Mode",
      href := "https://www.instagram.com/chatgpt/reel/DNyG5VvXEZM/",
      source := some "OpenAI",
      image := some "https://pub-41d52824b0bb4f44898c39e1c3c63cb8.r2.dev/press/study-mode.jpg" },
    { title := "WashU Rhodes Scholar finalist",
      href := "https://source.wustl.edu/2024/11/seniors-darden-seiler-were-rhodes-scholars-finalists/",
      source := some "Rhodes Trust",
      image := some "https://pub-41d52824b0bb4f44898c39e1c3c63cb8.r2.dev/press/rhodes.jpg" },
    { title := "Co-published Book on Education Uses of ChatGPT",
      href := "https://chatgpt.com/100chats-project",
      source := some "OpenAI",
      image := some "https://pub-41d52824b0bb4f44898c39e1c3c63cb8.r2.dev/press/100chats.jpg" },
    { title := "Awarded 2024 Michigan Truman Scholarship",
      href := "https://source.washu.edu/2024/04/junior-seiler-awarded-truman-scholarship/",
      source := some "Washington University",
      image := some "https://pub-41d52824b0bb4f44898c39e1c3c63cb8.r2.dev/press/truman.jpg" },
    { title := "Awarded 2025 Fulbright to Taiwan",
      href := "https://source.wustl.edu/2025/06/several-alumni-earn-fulbright-awards/",
      source := some "Washington University",
      image := some "https://pub-41d52824b0bb4f44898c39e1c3c63cb8.r2.dev/press/fulbright.jpg" },
    { title := "Truman Scholarship Q+A",
      href := "",
      source := some "Student Life",
      image := some "https://pub-41d52824b0bb4f44898c39e1c3c63cb8.r2.dev/press/trumanisaac.jpg" },
    { title := "60 Truman Scholars Announced For 2024",
      href := "",
      source := some "Forbes",
      image := some "https://pub-41d52824b0bb4f44898c39e1c3c63cb8.r2.dev/press/harrytruman.jpg" },
    { title := "Included in the best newspaper honor at Missouri College Media awards",
      href := "",
      source := some "Washington University",
      image := some "https://pub-41d52824b0bb4f44898c39e1c3c63cb8.r2.dev/press/washuspring.png" },
    { title := "University profile",
      href := "https://artsci.washu.edu/ampersand/isaac-seiler-setting-his-sights-high",
      source := some "Washington University",
      image := some "https://pub-41d52824b0bb4f44898c39e1c3c63cb8.r2.dev/press/wustl.jpg" } ]

/-- `pressCount = pressItems.length` from `page.tsx`. -/
def pressCount : Nat := pressItems.length

/-- `hasPress = pressCount > 0` from `page.tsx`. -/
def hasPress : Bool := decide (0 < pressCount)

/-! ## Static experience data (`lib/experienceData.ts`) -/

/-- The hard-coded `raw` array of experience entries from
`lib/experienceData.ts`.  String content is copied verbatim; `image: null`
becomes `image := none`. -/
def raw : List ExperienceItem :=
  [ { dates := "August 2025 – Present",
      role := "Fulbright Scholar",
      org := "Fulbright Taiwan",
      summary := "Isaac is living in New Taipei, Taiwan as a Fulbright Scholar, working in local elementary schools and engaging cross-culturally with students and staff. He also created and leads a collaboration with ChatGPT for Education/OpenAI and 20 Fulbright Scholars across Taiwan to benchmark education use cases for GPT-5 in K–12 English classrooms. This initiative, called a “Local Lab,” is the first partnership of its kind.",
      link := some "https://fulbright.org/",
      link_text := some "Fulbright is one of the most competitive fellowship programs in the world. Learn more" },
    { dates := "March 2025 – Present",
      role := "ChatGPT Lab Member",
      org := "OpenAI",
      summary := "Isaac was selected as a member of the first-ever ChatGPT Lab, a small group of students from across the United States and Canada that provides critical insight to OpenAI on education use and product launches. Through this program, he helped publish OpenAI’s first book, worked directly with product and marketing teams across five major launches, and participated in workshops with other Lab members.",
      link := some "https://chatgpt.com/use-cases/students",
      link_text := some "He co-developed 100 uses for ChatGPT in higher education. Learn more" },
    { dates := "June 2025 – August 2025",
      role := "AI and Emerging Tech Research Fellow",
      org := "Council for State Governments, Center for Innovation",
      summary := "Over a few short weeks, Isaac designed, built, and presented the first-ever state government AI adoption index, measuring across 900 data inputs how 56 state and territory governments across the United States are embracing generative artificial intelligence." },
    { dates := "May 2024 – August 2025",
      role := "Social Impact Communications and Strategy",
      org := "Boehringer Ingelheim Pharmaceuticals",
      summary := "At Boehringer Ingelheim Pharmaceuticals, Isaac directed the corporate foundation’s communications strategy. He spearheaded a comprehensive rebranding initiative, conducted in-depth data analyses for narrative development, strengthened employee engagement, and collaborated with UX/UI teams to optimize user experiences for both private and public foundation resources.",
      link := some "https://www.boehringer-ingelheim.com/annualreport/2024/facts-and-figures/",
      link_text := some "Boehringer Ingelheim is one of the largest life sciences companies in the world. Learn more" },
    { dates := "January 2024 – April 2025",
      role := "Freelance Communications Strategy Consultant",
      org := "Isaac Seiler Strategies",
      summary := "Isaac founded and ran his own consultancy, taking on 7+ clients and delivering full digital products tailored to their needs. He worked on everything from visual assets to crisis communications, supporting organizations in Arizona, California, and Michigan.",
      link := some "https://www.allysonfortustin.com/",
      link_text := some "Explore one of the campaigns he consulted for (including a site he built)" },
    { dates := "November 2022 – June 2023",
      role := "Communications Director and Transition Aide",
      org := "United States House of Representatives",
      summary := "Isaac was the first staff member for a new congressional office, directing hiring, strategy formation, and complex logistics. He helped build a political brand and stand up an entire congressional operation in under two months. He then built and led a competitive communications program for a frontline member of Congress, becoming the youngest person to serve as Director of Communications in congressional history. He placed stories in outlets including the New York Times and Washington Post, secured cable hits on CNN’s State of the Union with Jake Tapper and Dana Bash, and led earned, owned, and paid media for the office—reaching hundreds of thousands of people each week.",
      link := some "https://www.notion.so/Press-Hit-List-25b96844a3ac4a8abac3d749412938cb?source=copy_link",
      link_text := some "Browse a sample of press hits and other materials",
      pressHits := some
        [ { publisher := "CNN",
            href := "https://www.cnn.com/shows/state-of-the-union",
            logo := "https://pub-41d52824b0bb4f44898c39e1c3c63cb8.r2.dev/media-portfolio/cnn.png" },
          { publisher := "Dispatch",
            href := "https://www.dispatch.com/",
            logo := "https://pub-41d52824b0bb4f44898c39e1c3c63cb8.r2.dev/media-portfolio/dispatch.png" },
          { publisher := "NYT",
            href := "https://www.nytimes.com/",
            logo := "https://pub-41d52824b0bb4f44898c39e1c3c63cb8.r2.dev/media-portfolio/nyt.png" },
          { publisher := "WaPo",
            href := "https://www.washingtonpost.com/",
            logo := "https://pub-41d52824b0bb4f44898c39e1c3c63cb8.r2.dev/media-portfolio/wapo.png" },
          { publisher := "Slate",
            href := "https://slate.com/",
            logo := "https://pub-41d52824b0bb4f44898c39e1c3c63cb8.r2.dev/media-portfolio/slate.png" },
          { publisher := "Michigan\nAdvance",
            href := "https://michiganadvance.com/",
            logo := "https://pub-41d52824b0bb4f44898c39e1c3c63cb8.r2.dev/media-portfolio/advance.png" },
          { publisher := "MLive",
            href := "https://www.mlive.com/",
            logo := "https://pub-41d52824b0bb4f44898c39e1c3c63cb8.r2.dev/media-portfolio/mlive.png" },
          { publisher := "RIAA",
            href := "https://www.riaa.com/",
            logo := "https://pub-41d52824b0bb4f44898c39e1c3c63cb8.r2.dev/media-portfolio/riaa.png" },
          { publisher := "The\n19th",
            href := "https://19thnews.org/",
            logo := "https://pub-41d52824b0bb4f44898c39e1c3c63cb8.r2.dev/media-portfolio/19th.png" } ] },
    { dates := "June 2022 – November 2022",
      role := "Digital Communications, Logistics, and Strategy",
      org := "Hillary Scholten for U.S. Congress",
      summary := "Isaac began as a fellow on one of the most high-profile congressional races of 2022 and quickly moved up to oversee the campaign’s digital program. Through a rapidly scaled social media strategy, he organically reached over 1 million people weekly and generated tens of thousands in grassroots fundraising. In addition, he served as the logistical backbone of the campaign—coordinating logistics for 100+ events, including events with governors, members of Congress, and cabinet secretaries.",
      link := some "https://www.vanityfair.com/news/2022/06/democrats-midterms-house-michigan-districts-scholten-meijer",
      link_text := some "Read the Vanity Fair piece on the primary campaign" },
    { dates := "January 2021 – August 2022",
      role := "Research Assistant",
      org := "Institute for Nonprofit News",
      summary := "Isaac worked on a small, international research team processing and analyzing quantitative data for the largest consortium of nonprofit news organizations in the world. He also partnered with INN contractors on research into how stakeholders access news on digital and social platforms.",
      link := some "https://inn.org/research/inn-index/inn-index-2022/inn-index-2022/",
      link_text := some "See the 2022 INN Index report" } ]

/-- The `order` record from `lib/experienceData.ts`: year keys (in insertion
order) paired with their membership predicates, JS `role.includes(...)`
modelled by `jsIncludes`. -/
def order : List (String × (ExperienceItem → Bool)) :=
  [ ("2025", fun i =>
      jsIncludes i.role "Fulbright" || jsIncludes i.role "ChatGPT Lab" ||
        jsIncludes i.role "Emerging Tech"),
    ("2024", fun i =>
      jsIncludes i.role "Social Impact" || jsIncludes i.role "Freelance Communications"),
    ("2023", fun i => jsIncludes i.role "Communications Director"),
    ("2022", fun i => jsIncludes i.role "Digital Communications"),
    ("2021", fun i => jsIncludes i.role "Research Assistant") ]

/-- `experienceByYear` from `lib/experienceData.ts`:
`Object.fromEntries(Object.keys(order).map(y => [y, raw.filter(order[y])]))`,
modelled as an association list that keeps the key insertion order. -/
def experienceByYear : List (String × List ExperienceItem) :=
  order.map (fun p => (p.1, raw.filter p.2))

/-! ## Building the rendered timeline (`ExperienceDeck.tsx`) -/

/-- The `years` local of `buildItems` in `ExperienceDeck.tsx`:
`Object.keys(experienceByYear).sort((a, b) => Number(b) - Number(a))`, a
numerically descending sort of the year keys. -/
def years : List String :=
  (experienceByYear.map Prod.fst).insertionSort (fun a b => jsNumber b ≤ jsNumber a)

/-- `buildItems` from `ExperienceDeck.tsx`: flatten the year buckets in
`years` order, attaching the year to each entry
(`(experienceByYear[year] ?? []).map(item => ({...item, year}))`). -/
def buildItems : List ExperienceWithYear :=
  years.flatMap (fun year =>
    ((experienceByYear.lookup year).getD []).map (fun item => ⟨item, year⟩))

/-- The hard-coded `DEFAULT_COMMS_PRESS_HITS` array from
`ExperienceDeck.tsx`. -/
def DEFAULT_COMMS_PRESS_HITS : List PressHit :=
  [ { publisher := "CNN",
      href := "https://www.cnn.com/shows/state-of-the-union",
      logo := "https://pub-41d52824b0bb4f44898c39e1c3c63cb8.r2.dev/media-portfolio/cnn.png" },
    { publisher := "Dispatch",
      href := "https://www.dispatch.com/",
      logo := "https://pub-41d52824b0bb4f44898c39e1c3c63cb8.r2.dev/media-portfolio/dispatch.png" },
    { publisher := "NYT",
      href := "https://www.nytimes.com/",
      logo := "https://pub-41d52824b0bb4f44898c39e1c3c63cb8.r2.dev/media-portfolio/nyt.png" },
    { publisher := "WaPo",
      href := "https://www.washingtonpost.com/",
      logo := "https://pub-41d52824b0bb4f44898c39e1c3c63cb8.r2.dev/media-portfolio/wapo.png" },
    { publisher := "Slate",
      href := "https://slate.com/",
      logo := "https://pub-41d52824b0bb4f44898c39e1c3c63cb8.r2.dev/media-portfolio/slate.png" },
    { publisher := "Michigan\nAdvance",
      href := "https://michiganadvance.com/",
      logo := "https://pub-41d52824b0bb4f44898c39e1c3c63cb8.r2.dev/media-portfolio/advance.png" },
    { publisher := "MLive",
      href := "https://www.mlive.com/",
      logo := "https://pub-41d52824b0bb4f44898c39e1c3c63cb8.r2.dev/media-portfolio/mlive.png" },
    { publisher := "RIAA",
      href := "https://www.riaa.com/",
      logo := "https://pub-41d52824b0bb4f44898c39e1c3c63cb8.r2.dev/media-portfolio/riaa.png" },
    { publisher := "The\n19th",
      href := "https://19thnews.org/",
      logo := "https://pub-41d52824b0bb4f44898c39e1c3c63cb8.r2.dev/media-portfolio/19th.png" } ]

/-- `isCommsDirector` from `TimelineEntry` in `ExperienceDeck.tsx`:
`item.role.toLowerCase().includes("communications director") ||
item.org.toLowerCase().includes("house of representatives")`. -/
def isCommsDirector (item : ExperienceWithYear) : Bool :=
  jsIncludes (jsToLowerCase item.role) "communications director" ||
    jsIncludes (jsToLowerCase item.org) "house of representatives"

/-- `pressHits` resolution from `TimelineEntry` in `ExperienceDeck.tsx`:
`(item.pressHits?.length ? item.pressHits : undefined) ??
(isCommsDirector ? DEFAULT_COMMS_PRESS_HITS : [])`.  A `null`/absent or
empty own list falls through to the comms-director default. -/
def resolvedPressHits (item : ExperienceWithYear) : List PressHit :=
  match item.pressHits with
  | some l =>
      if 0 < l.length then l
      else if isCommsDirector item then DEFAULT_COMMS_PRESS_HITS else []
  | none => if isCommsDirector item then DEFAULT_COMMS_PRESS_HITS else []

/-! ## Press carousel copy (`page.tsx`) -/

/-- `visibleCount` from `page.tsx`:
`if (!viewportW) return 1; return Math.max(1, Math.floor((viewportW +
CARD_GAP) / (CARD_WIDTH + CARD_GAP)))`. -/
def pressVisibleCount (viewportW : Nat) : Nat :=
  if viewportW = 0 then 1
  else max 1 ((viewportW + CARD_GAP) / (CARD_WIDTH + CARD_GAP))

/-- `maxPressIndex` from `page.tsx`: `Math.max(0, pressCount - visibleCount)`
with `visibleCount` derived from the measured viewport width. -/
def maxPressIndex (viewportW : Nat) : Int :=
  max 0 ((pressCount : Int) - (pressVisibleCount viewportW : Int))

/-- `canPrev = pressIndex > 0` from `page.tsx`. -/
def pressCanPrev (s : CState) : Bool :=
  decide (0 < s.index)

/-- `canNext = pressIndex < maxPressIndex` from `page.tsx`. -/
def pressCanNext (s : CState) : Bool :=
  decide (s.index < maxPressIndex s.viewportW)

/-- `goPrevPress` from `page.tsx`:
`if (!hasPress) return; setPressIndex(prev => Math.max(0, prev - 1))`. -/
def goPrevPress (s : CState) : Int :=
  if hasPress then max 0 (s.index - 1) else s.index

/-- `goNextPress` from `page.tsx`:
`if (!hasPress) return; setPressIndex(prev => Math.min(maxPressIndex, prev + 1))`. -/
def goNextPress (s : CState) : Int :=
  if hasPress then min (maxPressIndex s.viewportW) (s.index + 1) else s.index

/-- One event of the press carousel in `page.tsx`.  Nav buttons run
`goPrevPress`/`goNextPress`; `onDragEnd` steps through them when the offset
passes the 60px threshold and the matching `canPrev`/`canNext` flag holds; a
resize updates the measured width (the observed element exists only when
`hasPress`) and the `useEffect` on `maxPressIndex` re-clamps the index. -/
def pressStep (s : CState) : CEvent → CState
  | .next => { s with index := goNextPress s }
  | .prev => { s with index := goPrevPress s }
  | .drag o =>
      if o < -60 ∧ s.index < maxPressIndex s.viewportW then
        { s with index := goNextPress s }
      else if 60 < o ∧ 0 < s.index then
        { s with index := goPrevPress s }
      else s
  | .resize w =>
      if hasPress then ⟨clamp s.index 0 (maxPressIndex w), w⟩ else s

/-- State of the press carousel after a sequence of events from mount. -/
def pressRun (events : List CEvent) : CState :=
  events.foldl pressStep initCState

/-! ## Press-hit rail copy (`PressHitsRail` in `ExperienceDeck.tsx`) -/

/-- `visibleCount` from `PressHitsRail`:
`if (!viewportW) return 1; return Math.max(1, Math.floor((viewportW +
HIT_GAP) / (HIT_DIAMETER + HIT_GAP)))`. -/
def hitsVisibleCount (viewportW : Nat) : Nat :=
  if viewportW = 0 then 1
  else max 1 ((viewportW + HIT_GAP) / (HIT_DIAMETER + HIT_GAP))

/-- `maxIndex` from `PressHitsRail`: `Math.max(0, hits.length - visibleCount)`
where `count` stands for `hits.length`. -/
def hitsMaxIndex (count viewportW : Nat) : Int :=
  max 0 ((count : Int) - (hitsVisibleCount viewportW : Int))

/-- `canPrev = index > 0` from `PressHitsRail`. -/
def hitsCanPrev (s : CState) : Bool :=
  decide (0 < s.index)

/-- `canNext = index < maxIndex` from `PressHitsRail`. -/
def hitsCanNext (count : Nat) (s : CState) : Bool :=
  decide (s.index < hitsMaxIndex count s.viewportW)

/-- One event of the press-hit rail.  Nav buttons run
`setIndex(Math.max(0, v - 1))` / `setIndex(Math.min(maxIndex, v + 1))`;
`onDragEnd` adds or subtracts 1 when the offset passes the 60px threshold
and the matching flag holds; a resize updates the measured width and the
`useEffect` on `maxIndex` re-clamps the index. -/
def hitsStep (count : Nat) (s : CState) : CEvent → CState
  | .next => { s with index := min (hitsMaxIndex count s.viewportW) (s.index + 1) }
  | .prev => { s with index := max 0 (s.index - 1) }
  | .drag o =>
      if o < -60 ∧ s.index < hitsMaxIndex count s.viewportW then
        { s with index := s.index + 1 }
      else if 60 < o ∧ 0 < s.index then
        { s with index := s.index - 1 }
      else s
  | .resize w => ⟨clamp s.index 0 (hitsMaxIndex count w), w⟩

/-- State of a press-hit rail with `count` hits after a sequence of events
from mount. -/
def hitsRun (count : Nat) (events : List CEvent) : CState :=
  events.foldl (hitsStep count) initCState

/-! ## Photo rail copy (`PhotoRail` in `ExperienceDeck.tsx`) -/

/-- `visibleCount` from `PhotoRail`:
`if (!viewportW) return 1; return Math.max(1, Math.floor((viewportW +
PHOTO_GAP) / (PHOTO_W + PHOTO_GAP)))`. -/
def photoVisibleCount (viewportW : Nat) : Nat :=
  if viewportW = 0 then 1
  else max 1 ((viewportW + PHOTO_GAP) / (PHOTO_W + PHOTO_GAP))

/-- `maxIndex` from `PhotoRail`: `Math.max(0, photos.length - visibleCount)`
where `count` stands for `photos.length`. -/
def photoMaxIndex (count viewportW : Nat) : Int :=
  max 0 ((count : Int) - (photoVisibleCount viewportW : Int))

/-- `canPrev = index > 0` from `PhotoRail`. -/
def photoCanPrev (s : CState) : Bool :=
  decide (0 < s.index)

/-- `canNext = index < maxIndex` from `PhotoRail`. -/
def photoCanNext (count : Nat) (s : CState) : Bool :=
  decide (s.index < photoMaxIndex count s.viewportW)

/-- One event of the photo rail; the handlers are character-for-character
the same as in `PressHitsRail`, only the sizing constants differ. -/
def photoStep (count : Nat) (s : CState) : CEvent → CState
  | .next => { s with index := min (photoMaxIndex count s.viewportW) (s.index + 1) }
  | .prev => { s with index := max 0 (s.index - 1) }
  | .drag o =>
      if o < -60 ∧ s.index < photoMaxIndex count s.viewportW then
        { s with index := s.index + 1 }
      else if 60 < o ∧ 0 < s.index then
        { s with index := s.index - 1 }
      else s
  | .resize w => ⟨clamp s.index 0 (photoMaxIndex count w), w⟩

/-- State of a photo rail with `count` photos after a sequence of events
from mount. -/
def photoRun (count : Nat) (events : List CEvent) : CState :=
  events.foldl (photoStep count) initCState

/-! ## Spec-side definitions and the unified parameterized utility

`computeVisibleCount` and `computeMaxIndex` are written from the
specification text (§4.1); the `rail*` family is the single parameterized
carousel utility the specification asks the three copies to be unified
into, with the sizing constants as parameters. -/

/-- Modelled from the spec:
`computeVisibleCount(viewportWidth, itemWidth, gap) =
max(1, floor((viewportWidth + gap) / (itemWidth + gap)))`. -/
def computeVisibleCount (viewportWidth itemWidth gap : Nat) : Nat :=
  max 1 ((viewportWidth + gap) / (itemWidth + gap))

/-- Modelled from the spec:
`computeMaxIndex(totalItems, visibleCount) = max(0, totalItems - visibleCount)`. -/
def computeMaxIndex (totalItems visibleCount : Int) : Int :=
  max 0 (totalItems - visibleCount)

/-- Parameterized form of the duplicated `visibleCount` computation, with
the sizing constants as parameters. -/
def railVisibleCount (itemW gap viewportW : Nat) : Nat :=
  if viewportW = 0 then 1
  else max 1 ((viewportW + gap) / (itemW + gap))

/-- Parameterized form of the duplicated `maxIndex` computation. -/
def railMaxIndex (itemW gap count viewportW : Nat) : Int :=
  max 0 ((count : Int) - (railVisibleCount itemW gap viewportW : Int))

/-- Parameterized form of the duplicated `canPrev` flag. -/
def railCanPrev (s : CState) : Bool :=
  decide (0 < s.index)

/-- Parameterized form of the duplicated `canNext` flag. -/
def railCanNext (itemW gap count : Nat) (s : CState) : Bool :=
  decide (s.index < railMaxIndex itemW gap count s.viewportW)

/-- Parameterized form of the duplicated event handling. -/
def railStep (itemW gap count : Nat) (s : CState) : CEvent → CState
  | .next => { s with index := min (railMaxIndex itemW gap count s.viewportW) (s.index + 1) }
  | .prev => { s with index := max 0 (s.index - 1) }
  | .drag o =>
      if o < -60 ∧ s.index < railMaxIndex itemW gap count s.viewportW then
        { s with index := s.index + 1 }
      else if 60 < o ∧ 0 < s.index then
        { s with index := s.index - 1 }
      else s
  | .resize w => ⟨clamp s.index 0 (railMaxIndex itemW gap count w), w⟩

/-- Parameterized run from the mount state. -/
def railRun (itemW gap count : Nat) (events : List CEvent) : CState :=
  events.foldl (railStep itemW gap count) initCState

/-! ## Helper lemmas -/

/-- The duplicated `visibleCount` computation always returns at least 1. -/
theorem railVisibleCount_pos (itemW gap w : Nat) : 1 ≤ railVisibleCount itemW gap w := by
  unfold railVisibleCount
  split
  · exact le_refl 1
  · exact le_max_left 1 _

/-- The duplicated `maxIndex` computation is never negative. -/
theorem railMaxIndex_nonneg (itemW gap count w : Nat) :
    0 ≤ railMaxIndex itemW gap count w :=
  le_max_left 0 _

/-- The press carousel `visibleCount` is the parameterized utility at the
press constants. -/
theorem pressVisibleCount_eq (w : Nat) :
    pressVisibleCount w = railVisibleCount CARD_WIDTH CARD_GAP w := rfl

/-- The press-hit rail `visibleCount` is the parameterized utility at the
rail constants. -/
theorem hitsVisibleCount_eq (w : Nat) :
    hitsVisibleCount w = railVisibleCount HIT_DIAMETER HIT_GAP w := rfl

/-- The photo rail `visibleCount` is the parameterized utility at the photo
constants. -/
theorem photoVisibleCount_eq (w : Nat) :
    photoVisibleCount w = railVisibleCount PHOTO_W PHOTO_GAP w := rfl

/-- The press carousel `maxIndex` is the parameterized utility at the press
constants and the press item count. -/
theorem maxPressIndex_eq (w : Nat) :
    maxPressIndex w = railMaxIndex CARD_WIDTH CARD_GAP pressCount w := rfl

/-- The press-hit rail `maxIndex` is the parameterized utility at the rail
constants. -/
theorem hitsMaxIndex_eq (count w : Nat) :
    hitsMaxIndex count w = railMaxIndex HIT_DIAMETER HIT_GAP count w := rfl

/-- The photo rail `maxIndex` is the parameterized utility at the photo
constants. -/
theorem photoMaxIndex_eq (count w : Nat) :
    photoMaxIndex count w = railMaxIndex PHOTO_W PHOTO_GAP count w := rfl

/-- One step of the parameterized carousel keeps the index inside
`[0, maxIndex]`. -/
theorem railStep_bounds (itemW gap count : Nat) (s : CState) (e : CEvent)
    (h0 : 0 ≤ s.index) (h1 : s.index ≤ railMaxIndex itemW gap count s.viewportW) :
    0 ≤ (railStep itemW gap count s e).index ∧
      (railStep itemW gap count s e).index ≤
        railMaxIndex itemW gap count (railStep itemW gap count s e).viewportW := by
  cases e with
  | next =>
      have hm := railMaxIndex_nonneg itemW gap count s.viewportW
      simp only [railStep, min_def]
      split_ifs <;> exact ⟨by omega, by omega⟩
  | prev =>
      have hm := railMaxIndex_nonneg itemW gap count s.viewportW
      simp only [railStep, max_def]
      split_ifs <;> exact ⟨by omega, by omega⟩
  | drag o =>
      have hm := railMaxIndex_nonneg itemW gap count s.viewportW
      simp only [railStep]
      split_ifs with hfwd hback
      · exact ⟨by dsimp only; omega, by dsimp only; omega⟩
      · exact ⟨by dsimp only; omega, by dsimp only; omega⟩
      · exact ⟨h0, h1⟩
  | resize w =>
      have hm := railMaxIndex_nonneg itemW gap count w
      simp only [railStep, clamp, min_def, max_def]
      split_ifs <;> exact ⟨by omega, by omega⟩

/-- Folding the parameterized step over any event list keeps the index
inside `[0, maxIndex]`. -/
theorem railFoldl_bounds (itemW gap count : Nat) (events : List CEvent) :
    ∀ s : CState, 0 ≤ s.index → s.index ≤ railMaxIndex itemW gap count s.viewportW →
      0 ≤ (events.foldl (railStep itemW gap count) s).index ∧
        (events.foldl (railStep itemW gap count) s).index ≤
          railMaxIndex itemW gap count
            (events.foldl (railStep itemW gap count) s).viewportW := by
  induction events with
  | nil => exact fun s h0 h1 => ⟨h0, h1⟩
  | cons e es ih =>
      intro s h0 h1
      have hs := railStep_bounds itemW gap count s e h0 h1
      simpa using ih (railStep itemW gap count s e) hs.1 hs.2

/-- The parameterized run satisfies the index invariant after every event
sequence from mount. -/
theorem railRun_bounds (itemW gap count : Nat) (events : List CEvent) :
    0 ≤ (railRun itemW gap count events).index ∧
      (railRun itemW gap count events).index ≤
        railMaxIndex itemW gap count (railRun itemW gap count events).viewportW :=
  railFoldl_bounds itemW gap count events initCState le_rfl
    (railMaxIndex_nonneg itemW gap count 0)

/-- The press-hit rail step function is the parameterized step at the rail
constants. -/
theorem hitsStep_eq_railStep (count : Nat) (s : CState) (e : CEvent) :
    hitsStep count s e = railStep HIT_DIAMETER HIT_GAP count s e := by
  cases e <;> rfl

/-- The photo rail step function is the parameterized step at the photo
constants. -/
theorem photoStep_eq_railStep (count : Nat) (s : CState) (e : CEvent) :
    photoStep count s e = railStep PHOTO_W PHOTO_GAP count s e := by
  cases e <;> rfl

/-- The press page carousel step function is the parameterized step at the
press constants and the fixed press item count (the `hasPress` guards in
`goPrevPress`/`goNextPress` never fire because `pressItems` has 10 entries,
and the drag handler only steps when the step stays in range, so the extra
`Math.min`/`Math.max` in `goNextPress`/`goPrevPress` are no-ops). -/
theorem pressStep_eq_railStep (s : CState) (e : CEvent) :
    pressStep s e = railStep CARD_WIDTH CARD_GAP pressCount s e := by
  have hp : hasPress = true := by decide
  cases e with
  | next => simp only [pressStep, railStep, goNextPress, hp, if_true, maxPressIndex_eq]
  | prev => simp only [pressStep, railStep, goPrevPress, hp, if_true, maxPressIndex_eq]
  | drag o =>
      simp only [pressStep, railStep, goNextPress, goPrevPress, hp, if_true, maxPressIndex_eq]
      split_ifs with hfwd hback
      · have : s.index + 1 ≤ railMaxIndex CARD_WIDTH CARD_GAP pressCount s.viewportW := by
          omega
        rw [min_eq_right this]
      · have : (0 : Int) ≤ s.index - 1 := by omega
        rw [max_eq_right this]
      · rfl
  | resize w => simp only [pressStep, railStep, hp, if_true, maxPressIndex_eq]

/-- Folding two pointwise-equal step functions gives the same state. -/
theorem foldl_step_congr {f g : CState → CEvent → CState}
    (h : ∀ s e, f s e = g s e) :
    ∀ (events : List CEvent) (s : CState), events.foldl f s = events.foldl g s := by
  intro events
  induction events with
  | nil => intro s; rfl
  | cons e es ih => intro s; simp only [List.foldl_cons, h s e, ih (g s e)]

/-- The press carousel run is the parameterized run at the press constants. -/
theorem pressRun_eq_railRun (events : List CEvent) :
    pressRun events = railRun CARD_WIDTH CARD_GAP pressCount events :=
  foldl_step_congr pressStep_eq_railStep events initCState

/-- The press-hit rail run is the parameterized run at the rail constants. -/
theorem hitsRun_eq_railRun (count : Nat) (events : List CEvent) :
    hitsRun count events = railRun HIT_DIAMETER HIT_GAP count events :=
  foldl_step_congr (hitsStep_eq_railStep count) events initCState

/-- The photo rail run is the parameterized run at the photo constants. -/
theorem photoRun_eq_railRun (count : Nat) (events : List CEvent) :
    photoRun count events = railRun PHOTO_W PHOTO_GAP count events :=
  foldl_step_congr (photoStep_eq_railStep count) events initCState

/-- Drag-release case analysis for the parameterized step: a release past
the threshold steps once in the legal direction, anything else leaves the
state unchanged. -/
theorem railStep_drag (itemW gap count : Nat) (s : CState) (o : Int) :
    (o < -60 → s.index < railMaxIndex itemW gap count s.viewportW →
      (railStep itemW gap count s (.drag o)).index = s.index + 1) ∧
    (60 < o → 0 < s.index →
      (railStep itemW gap count s (.drag o)).index = s.index - 1) ∧
    (-60 ≤ o → o ≤ 60 → railStep itemW gap count s (.drag o) = s) ∧
    (o < -60 → ¬ s.index < railMaxIndex itemW gap count s.viewportW →
      railStep itemW gap count s (.drag o) = s) ∧
    (60 < o → ¬ 0 < s.index → railStep itemW gap count s (.drag o) = s) := by
  refine ⟨?_, ?_, ?_, ?_, ?_⟩
  · intro ho hlt
    simp only [railStep]
    rw [if_pos ⟨ho, hlt⟩]
  · intro ho hpos
    simp only [railStep]
    rw [if_neg (fun h => by omega), if_pos ⟨ho, hpos⟩]
  · intro h1 h2
    simp only [railStep]
    rw [if_neg (fun h => by omega), if_neg (fun h => by omega)]
  · intro ho hnl
    simp only [railStep]
    rw [if_neg (fun h => hnl h.2), if_neg (fun h => by omega)]
  · intro ho hnp
    simp only [railStep]
    rw [if_neg (fun h => by omega), if_neg (fun h => hnp h.2)]

/-- With zero items the parameterized `maxIndex` is 0 at every viewport
width, because `visibleCount` is at least 1. -/
theorem railMaxIndex_zero (itemW gap w : Nat) : railMaxIndex itemW gap 0 w = 0 := by
  have h := railVisibleCount_pos itemW gap w
  unfold railMaxIndex
  have h2 : ((0 : Nat) : Int) - (railVisibleCount itemW gap w : Int) ≤ 0 := by omega
  exact max_eq_left h2

/-- Boundary behavior of the parameterized carousel: the backward step is a
no-op at index 0 and the forward step is a no-op at `maxIndex`, with the
matching flags false. -/
theorem railStep_boundary (itemW gap count w : Nat) :
    railStep itemW gap count ⟨0, w⟩ .prev = ⟨0, w⟩ ∧
    railCanPrev ⟨0, w⟩ = false ∧
    railStep itemW gap count ⟨railMaxIndex itemW gap count w, w⟩ .next =
      ⟨railMaxIndex itemW gap count w, w⟩ ∧
    railCanNext itemW gap count ⟨railMaxIndex itemW gap count w, w⟩ = false := by
  refine ⟨?_, ?_, ?_, ?_⟩
  · simp only [railStep]
    norm_num
  · simp [railCanPrev]
  · simp only [railStep]
    have hle : railMaxIndex itemW gap count w ≤ railMaxIndex itemW gap count w + 1 := by omega
    simp [min_eq_left hle]
  · simp [railCanNext]

/-- With zero items the parameterized run keeps the index at 0 forever. -/
theorem railRun_empty_index (itemW gap : Nat) (events : List CEvent) :
    (railRun itemW gap 0 events).index = 0 := by
  have h := railRun_bounds itemW gap 0 events
  have hm := railMaxIndex_zero itemW gap (railRun itemW gap 0 events).viewportW
  omega

/-- With zero items the forward step is a no-op on any reachable state. -/
theorem railStep_noop_next (itemW gap : Nat) (s : CState) (hi : s.index = 0)
    (hm : railMaxIndex itemW gap 0 s.viewportW = 0) :
    railStep itemW gap 0 s .next = s := by
  cases s with
  | mk i w =>
      simp only [railStep]
      simp only at hi hm
      subst hi
      simp [hm]

/-- With zero items the backward step is a no-op on any reachable state. -/
theorem railStep_noop_prev (itemW gap : Nat) (s : CState) (hi : s.index = 0) :
    railStep itemW gap 0 s .prev = s := by
  cases s with
  | mk i w =>
      simp only [railStep]
      simp only at hi
      subst hi
      norm_num

/-- The branch on an unmeasured viewport in the duplicated `visibleCount`
code is redundant: the code agrees with the spec formula
`max(1, floor((w + gap) / (itemW + gap)))` for every width, provided the
item width is positive. -/
theorem railVisibleCount_eq_formula (itemW gap w : Nat) (h : 0 < itemW) :
    railVisibleCount itemW gap w = computeVisibleCount w itemW gap := by
  unfold railVisibleCount computeVisibleCount
  split_ifs with h0
  · subst h0
    have hdiv : (0 + gap) / (itemW + gap) = 0 := Nat.div_eq_of_lt (by omega)
    rw [hdiv]
    simp
  · rfl

/-! ## Claims -/

/-- C1: for every carousel instance (press carousel, press-hit rail, photo
rail) and every sequence of navigation, drag-release, and resize events,
the index satisfies `0 ≤ index ≤ maxIndex` after each event is processed;
in particular a resize that recomputes `maxIndex` re-clamps the index: the
press carousel at index 7, resized to width 1600 where `maxIndex` becomes
4, clamps the index down to 4. -/
theorem C1_carousel_index_invariant :
    (∀ events : List CEvent,
        0 ≤ (pressRun events).index ∧
          (pressRun events).index ≤ maxPressIndex (pressRun events).viewportW) ∧
    (∀ (count : Nat) (events : List CEvent),
        0 ≤ (hitsRun count events).index ∧
          (hitsRun count events).index ≤
            hitsMaxIndex count (hitsRun count events).viewportW) ∧
    (∀ (count : Nat) (events : List CEvent),
        0 ≤ (photoRun count events).index ∧
          (photoRun count events).index ≤
            photoMaxIndex count (photoRun count events).viewportW) ∧
    pressStep ⟨7, 900⟩ (.resize 1600) = ⟨4, 1600⟩ ∧ maxPressIndex 1600 = 4 := by
  refine ⟨?_, ?_, ?_, by decide, by decide⟩
  · intro events
    rw [pressRun_eq_railRun, maxPressIndex_eq]
    exact railRun_bounds CARD_WIDTH CARD_GAP pressCount events
  · intro count events
    rw [hitsRun_eq_railRun, hitsMaxIndex_eq]
    exact railRun_bounds HIT_DIAMETER HIT_GAP count events
  · intro count events
    rw [photoRun_eq_railRun, photoMaxIndex_eq]
    exact railRun_bounds PHOTO_W PHOTO_GAP count events

/-- C2: for every viewport width and the fixed positive item-width and gap
constants of each carousel, the computed visible count equals
`max(1, floor((viewportWidth + gap) / (itemWidth + gap)))` and is at least
1, including on a zero-width (unmeasured) viewport where it is exactly 1. -/
theorem C2_visible_count_formula :
    (∀ w : Nat, pressVisibleCount w = computeVisibleCount w CARD_WIDTH CARD_GAP ∧
        1 ≤ pressVisibleCount w) ∧
    (∀ w : Nat, hitsVisibleCount w = computeVisibleCount w HIT_DIAMETER HIT_GAP ∧
        1 ≤ hitsVisibleCount w) ∧
    (∀ w : Nat, photoVisibleCount w = computeVisibleCount w PHOTO_W PHOTO_GAP ∧
        1 ≤ photoVisibleCount w) ∧
    (0 < CARD_WIDTH ∧ 0 < CARD_GAP) ∧ (0 < HIT_DIAMETER ∧ 0 < HIT_GAP) ∧
    (0 < PHOTO_W ∧ 0 < PHOTO_GAP) ∧
    pressVisibleCount 0 = 1 ∧ hitsVisibleCount 0 = 1 ∧ photoVisibleCount 0 = 1 := by
  refine ⟨?_, ?_, ?_, by decide, by decide, by decide, by decide, by decide, by decide⟩
  · intro w
    exact ⟨railVisibleCount_eq_formula CARD_WIDTH CARD_GAP w (by decide),
      railVisibleCount_pos CARD_WIDTH CARD_GAP w⟩
  · intro w
    exact ⟨railVisibleCount_eq_formula HIT_DIAMETER HIT_GAP w (by decide),
      railVisibleCount_pos HIT_DIAMETER HIT_GAP w⟩
  · intro w
    exact ⟨railVisibleCount_eq_formula PHOTO_W PHOTO_GAP w (by decide),
      railVisibleCount_pos PHOTO_W PHOTO_GAP w⟩

/-- C3: the computed maximum index of each copy equals
`max(0, totalItems - visibleCount)` and satisfies
`0 ≤ maxIndex ≤ totalItems` for `totalItems ≥ 0` and `visibleCount ≥ 1`;
with the 10 hard-coded press items, item width 253, gap 16 and viewport
width 900, the visible count is 3 and the maximum index is 7. -/
theorem C3_max_index_formula :
    (∀ t v : Int, 0 ≤ t → 1 ≤ v →
        computeMaxIndex t v = max 0 (t - v) ∧ 0 ≤ computeMaxIndex t v ∧
          computeMaxIndex t v ≤ t) ∧
    (∀ w : Nat, maxPressIndex w =
        computeMaxIndex (pressCount : Int) (pressVisibleCount w : Int)) ∧
    (∀ count w : Nat, hitsMaxIndex count w =
        computeMaxIndex (count : Int) (hitsVisibleCount w : Int)) ∧
    (∀ count w : Nat, photoMaxIndex count w =
        computeMaxIndex (count : Int) (photoVisibleCount w : Int)) ∧
    pressItems.length = 10 ∧ pressVisibleCount 900 = 3 ∧ maxPressIndex 900 = 7 := by
  refine ⟨?_, fun w => rfl, fun count w => rfl, fun count w => rfl,
    by decide, by decide, by decide⟩
  intro t v ht hv
  exact ⟨rfl, le_max_left 0 _, max_le ht (by omega)⟩

/-- C3 witness: instantiated at `totalItems = 10`, `visibleCount = 3`. -/
theorem C3_max_index_formula_witness :
    computeMaxIndex 10 3 = max 0 (10 - 3) ∧ 0 ≤ computeMaxIndex 10 3 ∧
      computeMaxIndex 10 3 ≤ 10 :=
  C3_max_index_formula.1 10 3 (by decide) (by decide)

/-- C4: in every carousel copy, at index 0 the backward step is a no-op and
`canPrev` is false, and at `index = maxIndex` the forward step is a no-op
and `canNext` is false. -/
theorem C4_boundary_noop :
    (∀ w : Nat,
        pressStep ⟨0, w⟩ .prev = ⟨0, w⟩ ∧ pressCanPrev ⟨0, w⟩ = false ∧
        pressStep ⟨maxPressIndex w, w⟩ .next = ⟨maxPressIndex w, w⟩ ∧
        pressCanNext ⟨maxPressIndex w, w⟩ = false) ∧
    (∀ count w : Nat,
        hitsStep count ⟨0, w⟩ .prev = ⟨0, w⟩ ∧ hitsCanPrev ⟨0, w⟩ = false ∧
        hitsStep count ⟨hitsMaxIndex count w, w⟩ .next = ⟨hitsMaxIndex count w, w⟩ ∧
        hitsCanNext count ⟨hitsMaxIndex count w, w⟩ = false) ∧
    (∀ count w : Nat,
        photoStep count ⟨0, w⟩ .prev = ⟨0, w⟩ ∧ photoCanPrev ⟨0, w⟩ = false ∧
        photoStep count ⟨photoMaxIndex count w, w⟩ .next = ⟨photoMaxIndex count w, w⟩ ∧
        photoCanNext count ⟨photoMaxIndex count w, w⟩ = false) := by
  refine ⟨fun w => ?_, fun count w => ?_, fun count w => ?_⟩
  · have h := railStep_boundary CARD_WIDTH CARD_GAP pressCount w
    exact ⟨(pressStep_eq_railStep _ _).trans h.1, h.2.1,
      (pressStep_eq_railStep _ _).trans h.2.2.1, h.2.2.2⟩
  · have h := railStep_boundary HIT_DIAMETER HIT_GAP count w
    exact ⟨(hitsStep_eq_railStep count _ _).trans h.1, h.2.1,
      (hitsStep_eq_railStep count _ _).trans h.2.2.1, h.2.2.2⟩
  · have h := railStep_boundary PHOTO_W PHOTO_GAP count w
    exact ⟨(photoStep_eq_railStep count _ _).trans h.1, h.2.1,
      (photoStep_eq_railStep count _ _).trans h.2.2.1, h.2.2.2⟩

/-- C5: a drag release past 60px leftward with a legal forward step
increments the index by exactly 1, past 60px rightward with a legal
backward step decrements it by exactly 1, and otherwise (at or below the
threshold, or at the blocked boundary) leaves the state unchanged; e.g. the
press carousel at index 2 with `maxIndex 900 = 7` moves to 3 on offset
-80 and stays at 2 on offset -40. -/
theorem C5_drag_release :
    (∀ (s : CState) (o : Int),
        (o < -60 → s.index < maxPressIndex s.viewportW →
          (pressStep s (.drag o)).index = s.index + 1) ∧
        (60 < o → 0 < s.index → (pressStep s (.drag o)).index = s.index - 1) ∧
        (-60 ≤ o → o ≤ 60 → pressStep s (.drag o) = s) ∧
        (o < -60 → ¬ s.index < maxPressIndex s.viewportW →
          pressStep s (.drag o) = s) ∧
        (60 < o → ¬ 0 < s.index → pressStep s (.drag o) = s)) ∧
    (∀ (count : Nat) (s : CState) (o : Int),
        (o < -60 → s.index < hitsMaxIndex count s.viewportW →
          (hitsStep count s (.drag o)).index = s.index + 1) ∧
        (60 < o → 0 < s.index → (hitsStep count s (.drag o)).index = s.index - 1) ∧
        (-60 ≤ o → o ≤ 60 → hitsStep count s (.drag o) = s) ∧
        (o < -60 → ¬ s.index < hitsMaxIndex count s.viewportW →
          hitsStep count s (.drag o) = s) ∧
        (60 < o → ¬ 0 < s.index → hitsStep count s (.drag o) = s)) ∧
    (∀ (count : Nat) (s : CState) (o : Int),
        (o < -60 → s.index < photoMaxIndex count s.viewportW →
          (photoStep count s (.drag o)).index = s.index + 1) ∧
        (60 < o → 0 < s.index → (photoStep count s (.drag o)).index = s.index - 1) ∧
        (-60 ≤ o → o ≤ 60 → photoStep count s (.drag o) = s) ∧
        (o < -60 → ¬ s.index < photoMaxIndex count s.viewportW →
          photoStep count s (.drag o) = s) ∧
        (60 < o → ¬ 0 < s.index → photoStep count s (.drag o) = s)) ∧
    pressStep ⟨2, 900⟩ (.drag (-80)) = ⟨3, 900⟩ ∧ maxPressIndex 900 = 7 ∧
    pressStep ⟨2, 900⟩ (.drag (-40)) = ⟨2, 900⟩ := by
  refine ⟨fun s o => ?_, fun count s o => ?_, fun count s o => ?_,
    by decide, by decide, by decide⟩
  · have h := railStep_drag CARD_WIDTH CARD_GAP pressCount s o
    have he := pressStep_eq_railStep s (.drag o)
    exact ⟨fun h1 h2 => by rw [he]; exact h.1 h1 h2,
      fun h1 h2 => by rw [he]; exact h.2.1 h1 h2,
      fun h1 h2 => by rw [he]; exact h.2.2.1 h1 h2,
      fun h1 h2 => by rw [he]; exact h.2.2.2.1 h1 h2,
      fun h1 h2 => by rw [he]; exact h.2.2.2.2 h1 h2⟩
  · have h := railStep_drag HIT_DIAMETER HIT_GAP count s o
    have he := hitsStep_eq_railStep count s (.drag o)
    exact ⟨fun h1 h2 => by rw [he]; exact h.1 h1 h2,
      fun h1 h2 => by rw [he]; exact h.2.1 h1 h2,
      fun h1 h2 => by rw [he]; exact h.2.2.1 h1 h2,
      fun h1 h2 => by rw [he]; exact h.2.2.2.1 h1 h2,
      fun h1 h2 => by rw [he]; exact h.2.2.2.2 h1 h2⟩
  · have h := railStep_drag PHOTO_W PHOTO_GAP count s o
    have he := photoStep_eq_railStep count s (.drag o)
    exact ⟨fun h1 h2 => by rw [he]; exact h.1 h1 h2,
      fun h1 h2 => by rw [he]; exact h.2.1 h1 h2,
      fun h1 h2 => by rw [he]; exact h.2.2.1 h1 h2,
      fun h1 h2 => by rw [he]; exact h.2.2.2.1 h1 h2,
      fun h1 h2 => by rw [he]; exact h.2.2.2.2 h1 h2⟩

/-- C5 witness: offset -80 at press index 2, viewport 900 (maxIndex 7),
steps the index to 3. -/
theorem C5_drag_release_witness :
    (pressStep ⟨2, 900⟩ (.drag (-80))).index = 2 + 1 :=
  (C5_drag_release.1 ⟨2, 900⟩ (-80)).1 (by decide) (by decide)

set_option maxRecDepth 40000 in
/-- C6: every one of the 8 hard-coded raw experience entries matches
exactly one of the five year predicates, so each entry lands in exactly one
bucket of `experienceByYear`, none is dropped and none is duplicated. -/
theorem C6_year_partition :
    raw.length = 8 ∧
    raw.map (fun item => (order.filter (fun p => p.2 item)).length) =
      [1, 1, 1, 1, 1, 1, 1, 1] ∧
    (experienceByYear.map Prod.snd).flatten.length = 8 ∧
    raw.map (fun item => ((experienceByYear.map Prod.snd).flatten).count item) =
      [1, 1, 1, 1, 1, 1, 1, 1] :=
  ⟨by decide, by decide, by decide, by decide⟩

set_option maxRecDepth 40000 in
/-- C7: the flattened timeline list presents the year buckets in strictly
descending numeric year order, and within each year bucket the entries
equal the raw list filtered by that year's predicate, hence appear in the
same relative order as in the raw source list; the whole construction is a
pure function of the fixed data. -/
theorem C7_flattened_order :
    years = ["2025", "2024", "2023", "2022", "2021"] ∧
    List.Pairwise (fun a b => jsNumber b < jsNumber a) years ∧
    List.Pairwise (fun a b : ExperienceWithYear => jsNumber b.year ≤ jsNumber a.year)
      buildItems ∧
    ((buildItems.filter (fun e => e.year == "2025")).map (fun e => e.toExperienceItem) =
        raw.filter ((order.lookup "2025").getD (fun _ => false)) ∧
      List.Sublist
        ((buildItems.filter (fun e => e.year == "2025")).map (fun e => e.toExperienceItem))
        raw) ∧
    ((buildItems.filter (fun e => e.year == "2024")).map (fun e => e.toExperienceItem) =
        raw.filter ((order.lookup "2024").getD (fun _ => false)) ∧
      List.Sublist
        ((buildItems.filter (fun e => e.year == "2024")).map (fun e => e.toExperienceItem))
        raw) ∧
    ((buildItems.filter (fun e => e.year == "2023")).map (fun e => e.toExperienceItem) =
        raw.filter ((order.lookup "2023").getD (fun _ => false)) ∧
      List.Sublist
        ((buildItems.filter (fun e => e.year == "2023")).map (fun e => e.toExperienceItem))
        raw) ∧
    ((buildItems.filter (fun e => e.year == "2022")).map (fun e => e.toExperienceItem) =
        raw.filter ((order.lookup "2022").getD (fun _ => false)) ∧
      List.Sublist
        ((buildItems.filter (fun e => e.year == "2022")).map (fun e => e.toExperienceItem))
        raw) ∧
    ((buildItems.filter (fun e => e.year == "2021")).map (fun e => e.toExperienceItem) =
        raw.filter ((order.lookup "2021").getD (fun _ => false)) ∧
      List.Sublist
        ((buildItems.filter (fun e => e.year == "2021")).map (fun e => e.toExperienceItem))
        raw) := by
  have h25 : (buildItems.filter (fun e => e.year == "2025")).map (fun e => e.toExperienceItem) =
      raw.filter ((order.lookup "2025").getD (fun _ => false)) := by decide
  have h24 : (buildItems.filter (fun e => e.year == "2024")).map (fun e => e.toExperienceItem) =
      raw.filter ((order.lookup "2024").getD (fun _ => false)) := by decide
  have h23 : (buildItems.filter (fun e => e.year == "2023")).map (fun e => e.toExperienceItem) =
      raw.filter ((order.lookup "2023").getD (fun _ => false)) := by decide
  have h22 : (buildItems.filter (fun e => e.year == "2022")).map (fun e => e.toExperienceItem) =
      raw.filter ((order.lookup "2022").getD (fun _ => false)) := by decide
  have h21 : (buildItems.filter (fun e => e.year == "2021")).map (fun e => e.toExperienceItem) =
      raw.filter ((order.lookup "2021").getD (fun _ => false)) := by decide
  exact ⟨by decide, by decide, by decide,
    ⟨h25, by rw [h25]; exact List.filter_sublist raw⟩,
    ⟨h24, by rw [h24]; exact List.filter_sublist raw⟩,
    ⟨h23, by rw [h23]; exact List.filter_sublist raw⟩,
    ⟨h22, by rw [h22]; exact List.filter_sublist raw⟩,
    ⟨h21, by rw [h21]; exact List.filter_sublist raw⟩⟩

/-- C8 counterexample: a press-hit rail mounted with an empty item list and
then measured at width 900 has `visibleCount = 10`, not 1 — the visible
count does not depend on the item count, so "empty item list yields
visibleCount = 1" fails once the viewport has been measured (the index,
however, is still 0). -/
theorem C8_empty_visible_count_counterexample :
    (hitsRun 0 [CEvent.resize 900]).index = 0 ∧
    (hitsRun 0 [CEvent.resize 900]).viewportW = 900 ∧
    hitsVisibleCount (hitsRun 0 [CEvent.resize 900]).viewportW = 10 ∧
    hitsVisibleCount (hitsRun 0 [CEvent.resize 900]).viewportW ≠ 1 :=
  ⟨by decide, by decide, by decide, by decide⟩

/-- C8 amended: for an empty item list (`count = 0`), after any event
sequence the rails have `maxIndex = 0`, `index = 0`, both navigation flags
false and both nav steps no-ops; the visible count is at least 1 and equals
1 exactly while the viewport is unmeasured (width 0), being independent of
the item count. -/
theorem C8_empty_list_behavior :
    (∀ events : List CEvent,
        (hitsRun 0 events).index = 0 ∧
        hitsMaxIndex 0 (hitsRun 0 events).viewportW = 0 ∧
        hitsCanPrev (hitsRun 0 events) = false ∧
        hitsCanNext 0 (hitsRun 0 events) = false ∧
        hitsStep 0 (hitsRun 0 events) .next = hitsRun 0 events ∧
        hitsStep 0 (hitsRun 0 events) .prev = hitsRun 0 events ∧
        1 ≤ hitsVisibleCount (hitsRun 0 events).viewportW) ∧
    (∀ events : List CEvent,
        (photoRun 0 events).index = 0 ∧
        photoMaxIndex 0 (photoRun 0 events).viewportW = 0 ∧
        photoCanPrev (photoRun 0 events) = false ∧
        photoCanNext 0 (photoRun 0 events) = false ∧
        photoStep 0 (photoRun 0 events) .next = photoRun 0 events ∧
        photoStep 0 (photoRun 0 events) .prev = photoRun 0 events ∧
        1 ≤ photoVisibleCount (photoRun 0 events).viewportW) ∧
    hitsVisibleCount 0 = 1 ∧ photoVisibleCount 0 = 1 := by
  refine ⟨fun events => ?_, fun events => ?_, by decide, by decide⟩
  · rw [hitsRun_eq_railRun]
    have hidx := railRun_empty_index HIT_DIAMETER HIT_GAP events
    have hmax := railMaxIndex_zero HIT_DIAMETER HIT_GAP
      (railRun HIT_DIAMETER HIT_GAP 0 events).viewportW
    refine ⟨hidx, hmax, ?_, ?_, ?_, ?_, railVisibleCount_pos HIT_DIAMETER HIT_GAP _⟩
    · simp [hitsCanPrev, hidx]
    · simp [hitsCanNext, hitsMaxIndex_eq, hidx, hmax]
    · rw [hitsStep_eq_railStep]
      exact railStep_noop_next HIT_DIAMETER HIT_GAP _ hidx hmax
    · rw [hitsStep_eq_railStep]
      exact railStep_noop_prev HIT_DIAMETER HIT_GAP _ hidx
  · rw [photoRun_eq_railRun]
    have hidx := railRun_empty_index PHOTO_W PHOTO_GAP events
    have hmax := railMaxIndex_zero PHOTO_W PHOTO_GAP
      (railRun PHOTO_W PHOTO_GAP 0 events).viewportW
    refine ⟨hidx, hmax, ?_, ?_, ?_, ?_, railVisibleCount_pos PHOTO_W PHOTO_GAP _⟩
    · simp [photoCanPrev, hidx]
    · simp [photoCanNext, photoMaxIndex_eq, hidx, hmax]
    · rw [photoStep_eq_railStep]
      exact railStep_noop_next PHOTO_W PHOTO_GAP _ hidx hmax
    · rw [photoStep_eq_railStep]
      exact railStep_noop_prev PHOTO_W PHOTO_GAP _ hidx

/-- C9: the three duplicated pagination copies (press carousel, press-hit
rail, photo rail) are each exactly the single parameterized utility
instantiated at their sizing constants — 253/16, 72/16 and 260/16 — for
`visibleCount`, `maxIndex`, the boundary flags, every event step and every
event-sequence run, so on equal inputs they compute identical results. -/
theorem C9_copies_equivalent :
    (∀ w : Nat, pressVisibleCount w = railVisibleCount CARD_WIDTH CARD_GAP w) ∧
    (∀ w : Nat, hitsVisibleCount w = railVisibleCount HIT_DIAMETER HIT_GAP w) ∧
    (∀ w : Nat, photoVisibleCount w = railVisibleCount PHOTO_W PHOTO_GAP w) ∧
    (∀ w : Nat, maxPressIndex w = railMaxIndex CARD_WIDTH CARD_GAP pressCount w) ∧
    (∀ count w : Nat, hitsMaxIndex count w = railMaxIndex HIT_DIAMETER HIT_GAP count w) ∧
    (∀ count w : Nat, photoMaxIndex count w = railMaxIndex PHOTO_W PHOTO_GAP count w) ∧
    (∀ s : CState, pressCanPrev s = railCanPrev s) ∧
    (∀ s : CState, hitsCanPrev s = railCanPrev s) ∧
    (∀ s : CState, photoCanPrev s = railCanPrev s) ∧
    (∀ s : CState, pressCanNext s = railCanNext CARD_WIDTH CARD_GAP pressCount s) ∧
    (∀ (count : Nat) (s : CState),
        hitsCanNext count s = railCanNext HIT_DIAMETER HIT_GAP count s) ∧
    (∀ (count : Nat) (s : CState),
        photoCanNext count s = railCanNext PHOTO_W PHOTO_GAP count s) ∧
    (∀ (s : CState) (e : CEvent),
        pressStep s e = railStep CARD_WIDTH CARD_GAP pressCount s e) ∧
    (∀ (count : Nat) (s : CState) (e : CEvent),
        hitsStep count s e = railStep HIT_DIAMETER HIT_GAP count s e) ∧
    (∀ (count : Nat) (s : CState) (e : CEvent),
        photoStep count s e = railStep PHOTO_W PHOTO_GAP count s e) ∧
    (∀ events : List CEvent,
        pressRun events = railRun CARD_WIDTH CARD_GAP pressCount events) ∧
    (∀ (count : Nat) (events : List CEvent),
        hitsRun count events = railRun HIT_DIAMETER HIT_GAP count events) ∧
    (∀ (count : Nat) (events : List CEvent),
        photoRun count events = railRun PHOTO_W PHOTO_GAP count events) ∧
    (CARD_WIDTH = 253 ∧ CARD_GAP = 16) ∧ (HIT_DIAMETER = 72 ∧ HIT_GAP = 16) ∧
    (PHOTO_W = 260 ∧ PHOTO_GAP = 16) ∧ pressCount = pressItems.length :=
  ⟨pressVisibleCount_eq, hitsVisibleCount_eq, photoVisibleCount_eq,
    maxPressIndex_eq, hitsMaxIndex_eq, photoMaxIndex_eq,
    fun _ => rfl, fun _ => rfl, fun _ => rfl,
    fun _ => rfl, fun _ _ => rfl, fun _ _ => rfl,
    pressStep_eq_railStep, hitsStep_eq_railStep, photoStep_eq_railStep,
    pressRun_eq_railRun, hitsRun_eq_railRun, photoRun_eq_railRun,
    ⟨rfl, rfl⟩, ⟨rfl, rfl⟩, ⟨rfl, rfl⟩, rfl⟩

/-- C10: a timeline entry whose own `pressHits` list is absent or empty
resolves to the 9-element comms default exactly when its lowercased role
contains "communications director" or its lowercased org contains "house of
representatives", and resolves to the empty list (rail not rendered)
otherwise; an entry with a non-empty own `pressHits` list always resolves
to that list. -/
theorem C10_press_hits_resolution :
    (∀ item : ExperienceWithYear,
        (item.pressHits = none ∨ item.pressHits = some []) →
          (resolvedPressHits item = DEFAULT_COMMS_PRESS_HITS ↔
            isCommsDirector item = true) ∧
          (resolvedPressHits item = [] ↔ isCommsDirector item = false)) ∧
    (∀ (item : ExperienceWithYear) (l : List PressHit),
        item.pressHits = some l → l ≠ [] → resolvedPressHits item = l) ∧
    DEFAULT_COMMS_PRESS_HITS.length = 9 := by
  have hne : DEFAULT_COMMS_PRESS_HITS ≠ [] := by decide
  refine ⟨?_, ?_, by decide⟩
  · intro item hempty
    have hres : resolvedPressHits item =
        (if isCommsDirector item then DEFAULT_COMMS_PRESS_HITS else []) := by
      rcases hempty with h | h <;> simp [resolvedPressHits, h]
    cases hcd : isCommsDirector item
    · rw [hres, hcd]
      constructor
      · simp [Ne.symm hne]
      · simp
    · rw [hres, hcd]
      constructor
      · simp
      · simp [hne]
  · intro item l hl hlne
    simp [resolvedPressHits, hl, List.length_pos.mpr hlne]

/-- First entry of the rendered timeline (the 2025 Fulbright entry), used
to witness the press-hit resolution. -/
def firstTimelineEntry : ExperienceWithYear :=
  buildItems.headD ⟨{ dates := "", role := "", org := "", summary := "" }, ""⟩

set_option maxRecDepth 40000 in
/-- C10 witness: the Fulbright entry has no own press hits and is not a
comms-director entry, so its rail receives no hits. -/
theorem C10_press_hits_resolution_witness :
    resolvedPressHits firstTimelineEntry = [] :=
  ((C10_press_hits_resolution.1 firstTimelineEntry (Or.inl (by decide))).2).mpr (by decide)
